import Mathlib

/-!
Shallow embedding of `snapshot_role_bot.py` (a single-command chat bot that
renders the members of a role as a CSV artifact and delivers it to a channel),
together with theorems settling the specification claims about:
localization lookup (`t`), language resolution (`pick_lang`), timestamp
formatting (`format_timestamp`), CSV rendering (the `csv.writer` dialect used
by `snapshot`), member sorting, channel resolution
(`resolve_default_channel`), and the delivery pipeline (`snapshot`).

Python strings are modelled as Lean `String`, dictionaries as association
lists, machine integers as `Nat`/`Int`, fallible library calls as `Option`,
and the effectful pipeline as a pure function producing a trace of effects.
-/

namespace SnapshotBot

/-! ### Python string truthiness -/

/-- Python truthiness of a string: non-empty strings are truthy. -/
def pyTruthy (s : String) : Bool := s ≠ ""

/-- `s.lower()` (character-wise lowercasing, as in Python for the ASCII range). -/
def py_lower (s : String) : String := String.mk (s.data.map Char.toLower)

/-- `s.startswith(p)`. -/
def py_startswith (s p : String) : Bool := p.data.isPrefixOf s.data

/-- `s.strip()`: remove leading and trailing whitespace. -/
def py_strip (s : String) : String :=
  String.mk (((s.data.dropWhile Char.isWhitespace).reverse.dropWhile Char.isWhitespace).reverse)

/-- `s.replace(old, new)` for a single-character pattern replaced by a single
character (the only form the source uses). -/
def py_replace_char (s : String) (old new : Char) : String :=
  String.mk (s.data.map (fun c => if c = old then new else c))

/-- Python truthiness of an optional string (`None` and `""` are falsy). -/
def pyTruthyOpt : Option String → Bool
  | none => false
  | some s => pyTruthy s

/-! ### Language catalog (`_LANG_CACHE`) -/

/-- One language's message table: message key to template string. -/
abbrev LangTable := List (String × String)

/-- The catalog `_LANG_CACHE`: language code to message table. -/
abbrev Catalog := List (String × LangTable)

/-- `d.get(k)` on a message table. -/
def tableGet (d : LangTable) (k : String) : Option String :=
  (d.find? (fun p => p.1 == k)).map (fun p => p.2)

/-- `cache.get(lang, {})`. -/
def catalogTable (cache : Catalog) (lang : String) : LangTable :=
  ((cache.find? (fun p => p.1 == lang)).map (fun p => p.2)).getD []

/-- `cache.get(lang, {}).get(key)`. -/
def cacheGet (cache : Catalog) (lang key : String) : Option String :=
  tableGet (catalogTable cache lang) key

/-- `lang in cache` (dictionary key membership). -/
def hasLang (cache : Catalog) (lang : String) : Bool :=
  (cache.find? (fun p => p.1 == lang)).isSome

/-- The language codes present in the catalog. -/
def catalogLangs (cache : Catalog) : List String := cache.map (fun p => p.1)

/-! ### `str.format_map` model -/

/-- The opening curly brace character. -/
def braceL : Char := Char.ofNat 123

/-- The closing curly brace character. -/
def braceR : Char := Char.ofNat 125

/-- `kwargs[k]` lookup for placeholder substitution. -/
def kwargsGet (kwargs : List (String × String)) (k : String) : Option String :=
  (kwargs.find? (fun p => p.1 == k)).map (fun p => p.2)

/-- Scanner state for the `str.format_map` model: ordinary text, just after an
opening brace, just after a closing brace, or inside a replacement-field name
(accumulated in reverse). -/
inductive FmState where
  | normal
  | sawL
  | sawR
  | field (acc : List Char)

/-- Model of CPython `str.format_map` over already-stringified keyword values:
doubled braces are literals, `\x7bname\x7d` is replaced by the named value,
and any failure (missing key, lone or unclosed brace, or a replacement field
that is not a plain name known to the mapping) yields `none`, standing for the
`KeyError`/`ValueError`/`IndexError` the real call raises. -/
def fmRun (kwargs : List (String × String)) (st : FmState) : List Char → Option (List Char)
  | [] =>
    match st with
    | FmState.normal => some []
    | _ => none
  | c :: rest =>
    match st with
    | FmState.normal =>
      if c = braceL then fmRun kwargs FmState.sawL rest
      else if c = braceR then fmRun kwargs FmState.sawR rest
      else (fmRun kwargs FmState.normal rest).map (fun out => c :: out)
    | FmState.sawL =>
      if c = braceL then (fmRun kwargs FmState.normal rest).map (fun out => braceL :: out)
      else if c = braceR then
        match kwargsGet kwargs "" with
        | some v => (fmRun kwargs FmState.normal rest).map (fun out => v.data ++ out)
        | none => none
      else fmRun kwargs (FmState.field [c]) rest
    | FmState.sawR =>
      if c = braceR then (fmRun kwargs FmState.normal rest).map (fun out => braceR :: out)
      else none
    | FmState.field acc =>
      if c = braceR then
        match kwargsGet kwargs (String.mk acc.reverse) with
        | some v => (fmRun kwargs FmState.normal rest).map (fun out => v.data ++ out)
        | none => none
      else fmRun kwargs (FmState.field (c :: acc)) rest

/-- `template.format_map(kwargs)`: `none` models a raised exception. -/
def format_map (template : String) (kwargs : List (String × String)) : Option String :=
  (fmRun kwargs FmState.normal template.data).map String.mk

/-! ### Translation helper `t` (lines 127-133) -/

/-- `t`: translation helper with placeholder replacement.  The body is the
Python expression
`cache.get(lang, {}).get(key) or cache.get("en", {}).get(key) or
 cache.get("de", {}).get(key) or key`
(where `or` skips falsy operands, i.e. `None` and the empty string), followed
by `text.format_map(kwargs)` guarded by `try/except` returning `text`. -/
def t (cache : Catalog) (lang key : String) (kwargs : List (String × String)) : String :=
  let e1 := cacheGet cache lang key
  let e2 := cacheGet cache "en" key
  let e3 := cacheGet cache "de" key
  let text :=
    if pyTruthyOpt e1 then e1.getD ""
    else if pyTruthyOpt e2 then e2.getD ""
    else if pyTruthyOpt e3 then e3.getD ""
    else key
  match format_map text kwargs with
  | some s => s
  | none => text

/-! ### Language resolution `pick_lang` (lines 108-125) -/

/-- `_to_locale_code`: a missing hint becomes the empty string; a present hint
is its code string (the `getattr(x, "value", None)` / `str(x)` unwrapping of
the locale object is collaborator plumbing, modelled as the string itself). -/
def to_locale_code (x : Option String) : String := x.getD ""

/-- `pick_lang`: forced `.env` language, else request locale hint, else guild
locale hint, else "de" if present, otherwise "en". -/
def pick_lang (forced : String) (cache : Catalog) (locale guild_locale : Option String) : String :=
  if pyTruthy forced && hasLang cache forced then forced
  else
    let raw :=
      if pyTruthy (to_locale_code locale) then to_locale_code locale
      else to_locale_code guild_locale
    let cand := py_lower raw
    if py_startswith cand "de" && hasLang cache "de" then "de"
    else if py_startswith cand "en" && hasLang cache "en" then "en"
    else if hasLang cache "de" then "de" else "en"

/-! ### Timestamp formatting (lines 140-153) -/

/-- Civil date-time fields, the view `strftime` consumes. -/
structure PyDateTime where
  year : Nat
  month : Nat
  day : Nat
  hour : Nat
  minute : Nat
  second : Nat
deriving DecidableEq, Repr

/-- Zero-pad to two digits. -/
def pad2 (n : Nat) : String := if n < 10 then "0" ++ toString n else toString n

/-- Zero-pad to four digits (`%Y`). -/
def pad4 (n : Nat) : String :=
  if n < 10 then "000" ++ toString n
  else if n < 100 then "00" ++ toString n
  else if n < 1000 then "0" ++ toString n
  else toString n

/-- Rendering of one `strftime` directive.  The directives the program can
use by default are `%d %m %Y %H %M %S`; a doubled percent is a literal, and
any other directive is modelled as passing through unchanged. -/
def strftimeDirective (d : PyDateTime) (c : Char) : List Char :=
  if c = 'd' then (pad2 d.day).data
  else if c = 'm' then (pad2 d.month).data
  else if c = 'Y' then (pad4 d.year).data
  else if c = 'H' then (pad2 d.hour).data
  else if c = 'M' then (pad2 d.minute).data
  else if c = 'S' then (pad2 d.second).data
  else if c = '%' then ['%']
  else ['%', c]

/-- Character-level `strftime` scan. -/
def strftimeGo (d : PyDateTime) : List Char → List Char
  | [] => []
  | '%' :: c :: rest => strftimeDirective d c ++ strftimeGo d rest
  | c :: rest => c :: strftimeGo d rest

/-- `dt.strftime(fmt)`. -/
def strftime (fmt : String) (d : PyDateTime) : String := String.mk (strftimeGo d fmt.data)

/-- The default pattern for language "de". -/
def de_datefmt : String := "%d.%m.%Y %H:%M:%S"

/-- The default pattern for every other language. -/
def en_datefmt : String := "%Y-%m-%d %H:%M:%S"

/-- `format_timestamp` (lines 140-153): a configured `BOT_DATEFMT` wins if
truthy, else the pattern is picked by exact comparison with "de"; the instant
is first pushed through the configured timezone.  `dt.astimezone(CONFIG_TZ)`
is a collaborator (`zoneinfo`), modelled as the conversion function
`tz_conv`. -/
def format_timestamp (bot_datefmt : Option String) (tz_conv : PyDateTime → PyDateTime)
    (dt : PyDateTime) (lang : String) : String :=
  let fmt :=
    if pyTruthyOpt bot_datefmt then bot_datefmt.getD ""
    else if lang == "de" then de_datefmt
    else en_datefmt
  strftime fmt (tz_conv dt)

/-! ### CSV renderer (lines 238-256)

`csv.writer(buf, delimiter=';', lineterminator='\r\n', quoting=csv.QUOTE_ALL,
quotechar='"', escapechar='\\')` with the default `doublequote=True`.  Per the
CPython `_csv` writer: with `QUOTE_ALL` every field is quoted; an embedded
quote character is doubled (because `doublequote` is on), an embedded escape
character is prefixed with itself, and delimiter or line-terminator characters
pass through unchanged inside the quotes. -/

/-- One step of the `_csv.c` field-writing loop. -/
def join_append_char (acc : String) (c : Char) : String :=
  if c = '"' then (acc.push '"').push '"'
  else if c = '\\' then (acc.push '\\').push '\\'
  else acc.push c

/-- Write one field: opening quote, escaped content, closing quote. -/
def write_field (s : String) : String := (s.data.foldl join_append_char "\"").push '"'

/-- `writer.writerow(row)` appended to the buffer. -/
def write_row (buf : String) (row : List String) : String :=
  buf ++ String.intercalate ";" (row.map write_field) ++ "\r\n"

/-- The full text written to the buffer: header row, then each data row. -/
def render_csv (header : List String) (rows : List (List String)) : String :=
  rows.foldl write_row (write_row "" header)

/-- Standard UTF-8 encoding of one code point, as naturals. -/
def utf8EncodeCharNat (c : Char) : List Nat :=
  let n := c.toNat
  if n < 128 then [n]
  else if n < 2048 then [192 + n / 64, 128 + n % 64]
  else if n < 65536 then [224 + n / 4096, 128 + n / 64 % 64, 128 + n % 64]
  else [240 + n / 262144, 128 + n / 4096 % 64, 128 + n / 64 % 64, 128 + n % 64]

/-- UTF-8 bytes of a string, as naturals. -/
def utf8Bytes (s : String) : List Nat := s.data.flatMap utf8EncodeCharNat

/-- The UTF-8 byte-order mark emitted by `encode("utf-8-sig")`. -/
def bomBytes : List Nat := [239, 187, 191]

/-- `buf.getvalue().encode("utf-8-sig")`. -/
def csv_bytes (header : List String) (rows : List (List String)) : List Nat :=
  bomBytes ++ utf8Bytes (render_csv header rows)

/-! ### Members and sorting (lines 234-235, 252-254) -/

/-- A guild member as the command consumes it. -/
structure Member where
  display_name : String
  name : String
  id : Nat
deriving DecidableEq, Repr

/-- The Python sort key `(m.display_name or m.name).lower()`. -/
def member_sort_key (m : Member) : String :=
  py_lower (if pyTruthy m.display_name then m.display_name else m.name)

/-- Boolean code-point-lexicographic `<=` on character lists, modelling
Python's string comparison. -/
def strLeb : List Char → List Char → Bool
  | [], _ => true
  | _ :: _, [] => false
  | a :: as, b :: bs =>
    if a.toNat < b.toNat then true
    else if b.toNat < a.toNat then false
    else strLeb as bs

/-- The sort relation used by `members.sort(key=...)`: keys compare `<=`. -/
def memberLe (a b : Member) : Prop :=
  strLeb (member_sort_key a).data (member_sort_key b).data = true

instance : DecidableRel memberLe := fun _ _ => decEq _ _

/-- `members.sort(key=lambda m: (m.display_name or m.name).lower())`:
Python's `list.sort` is a stable ascending sort by the key, embedded as
insertion sort (extensionally equal to any stable sort by the same key). -/
def sort_members (l : List Member) : List Member := l.insertionSort memberLe

/-- Line 253: `(m.display_name or m.name).replace("\r", " ").replace("\n", " ").strip()`. -/
def clean_name (m : Member) : String :=
  py_strip (py_replace_char (py_replace_char
    (if pyTruthy m.display_name then m.display_name else m.name) '\r' ' ') '\n' ' ')

/-- Line 254: the data rows, one per (already sorted) member. -/
def build_rows (snapshot_time : String) (members : List Member) : List (List String) :=
  members.map (fun m => [snapshot_time, clean_name m, toString m.id])

/-! ### Channels and channel resolution (lines 177-185, 226-228) -/

/-- A text channel, identified by its numeric id. -/
structure Channel where
  id : Nat
deriving DecidableEq, Repr

/-- The permission flags the pipeline queries on the target channel. -/
structure Perms where
  send_messages : Bool
  attach_files : Bool
  view_channel : Bool
deriving DecidableEq, Repr

/-- A guild: its channel set and the bot's per-channel permission lookup
(`none` models `permissions_for` raising, which the source swallows). -/
structure Guild where
  channels : List Channel
  perms_for : Nat → Option Perms

/-- Decimal digits to a natural. -/
def digitsToNat (ds : List Char) : Nat := ds.foldl (fun a c => a * 10 + (c.toNat - 48)) 0

/-- Model of Python `int()` applied to a string: strip whitespace, optional
sign, then decimal digits; anything else raises (`none`).  (Underscore digit
grouping is not modelled; the source only feeds it an `.env` channel id.) -/
def pyIntParse (s : String) : Option Int :=
  let stripped := (py_strip s).data
  let signed : Int × List Char :=
    match stripped with
    | c :: rest =>
      if c = '-' then (-1, rest)
      else if c = '+' then (1, rest)
      else (1, stripped)
    | [] => (1, [])
  if signed.2.isEmpty then none
  else if signed.2.all Char.isDigit then some (signed.1 * (digitsToNat signed.2 : Int))
  else none

/-- `guild.get_channel(cid)`. -/
def guild_get_channel (g : Guild) (cid : Int) : Option Channel :=
  g.channels.find? (fun c => (c.id : Int) == cid)

/-- `resolve_default_channel` (lines 177-185): falsy env value yields `None`;
then `int(...)` and `guild.get_channel`, any failure yielding `None`. -/
def resolve_default_channel (env_id : Option String) (g : Guild) : Option Channel :=
  if !pyTruthyOpt env_id then none
  else
    match pyIntParse (env_id.getD "") with
    | some cid => guild_get_channel g cid
    | none => none

/-- Line 226: `channel or resolve_default_channel(guild) or interaction.channel`
(`or` on objects: `None` is the only falsy value here). -/
def target_channel (chanArg : Option Channel) (env_id : Option String) (g : Guild)
    (invocation : Option Channel) : Option Channel :=
  (chanArg.or (resolve_default_channel env_id g)).or invocation

/-! ### The built-in catalog (`load_lang` fallback, lines 67-106) -/

/-- The built-in "de" message table. -/
def default_de_table : LangTable :=
  [("cmd.description", "CSV-Snapshot aller Mitglieder mit einer Rolle; Upload in einen Kanal."),
   ("arg.role", "Rolle, deren Mitglieder erfasst werden"),
   ("arg.channel", "(Optional) Zielkanal für die CSV (sonst Default- oder aktueller Kanal)"),
   ("err.need_manage_guild", "❌ Du benötigst die Berechtigung **Server verwalten**."),
   ("err.guild_only", "❌ Dieser Befehl kann nur in einem Server genutzt werden."),
   ("err.no_target_channel", "❌ Konnte keinen Zielkanal ermitteln."),
   ("err.missing_perms", "❌ Fehlende Rechte in {channel} (Nachrichten senden / Dateien anhängen / Kanal ansehen)."),
   ("err.send_forbidden", "❌ Keine Berechtigung, in {channel} zu posten."),
   ("err.unexpected_send", "❌ Unerwarteter Fehler beim Senden der Datei: `{error}`"),
   ("warn.invalid_tz", "⚠️ Ungültige Zeitzone in .env: '{tz}'. Es wird **UTC** verwendet. Setze `BOT_TZ` auf eine gültige IANA-Zeitzone (z. B. Europe/Berlin)."),
   ("ok.posted", "✅ Snapshot erstellt und in {channel} gepostet."),
   ("post.header", "📸 Snapshot für Rolle <@&{role_id}> – {count} Nutzer"),
   ("post.timestamp", "🕒 Erstellt am: {timestamp}"),
   ("csv.header.timestamp", "Zeitstempel"),
   ("csv.header.username", "Username"),
   ("csv.header.discord_id", "Discord-ID")]

/-- The built-in "en" message table. -/
def default_en_table : LangTable :=
  [("cmd.description", "CSV snapshot of members with a role; uploads to a channel."),
   ("arg.role", "Role whose members to snapshot"),
   ("arg.channel", "(Optional) Target channel for the CSV (else default/current)"),
   ("err.need_manage_guild", "❌ You need the **Manage Server** permission."),
   ("err.guild_only", "❌ This command can only be used in a server."),
   ("err.no_target_channel", "❌ Could not determine a target channel."),
   ("err.missing_perms", "❌ Missing permissions in {channel} (Send Messages / Attach Files / View Channel)."),
   ("err.send_forbidden", "❌ No permission to post in {channel}."),
   ("err.unexpected_send", "❌ Unexpected error while sending the file: `{error}`"),
   ("warn.invalid_tz", "⚠️ Invalid timezone in .env: '{tz}'. Using **UTC**. Set `BOT_TZ` to a valid IANA zone (e.g., Europe/Berlin)."),
   ("ok.posted", "✅ Snapshot created and posted in {channel}."),
   ("post.header", "📸 Snapshot for role <@&{role_id}> – {count} members"),
   ("post.timestamp", "🕒 Created at: {timestamp}"),
   ("csv.header.timestamp", "Timestamp"),
   ("csv.header.username", "Username"),
   ("csv.header.discord_id", "Discord ID")]

/-- The catalog installed by `load_lang` when no `lang.json` file exists. -/
def default_lang_cache : Catalog := [("de", default_de_table), ("en", default_en_table)]

/-! ### Process configuration (lines 32-46) -/

/-- The configuration snapshot captured at startup. -/
structure Config where
  forced_lang : String
  cache : Catalog
  bot_tz : String
  tz_valid : Bool
  tz_conv : PyDateTime → PyDateTime
  bot_datefmt : Option String
  default_channel_id : Option String

/-- Startup timezone validation (lines 40-46): `ZoneInfo` is a collaborator,
modelled as a partial map from zone names to conversion functions, with
`utc_conv` standing for `ZoneInfo("UTC")`.  A failed lookup falls back to UTC
and clears the validity flag. -/
def startup_tz (zone_lookup : String → Option (PyDateTime → PyDateTime))
    (utc_conv : PyDateTime → PyDateTime) (bot_tz : String) :
    (PyDateTime → PyDateTime) × Bool :=
  match zone_lookup bot_tz with
  | some z => (z, true)
  | none => (utc_conv, false)

/-- Assemble the process configuration as startup does. -/
def mkConfig (zone_lookup : String → Option (PyDateTime → PyDateTime))
    (utc_conv : PyDateTime → PyDateTime) (forced_lang : String) (cache : Catalog)
    (bot_tz : String) (bot_datefmt default_channel_id : Option String) : Config :=
  { forced_lang := forced_lang
    cache := cache
    bot_tz := bot_tz
    tz_valid := (startup_tz zone_lookup utc_conv bot_tz).2
    tz_conv := (startup_tz zone_lookup utc_conv bot_tz).1
    bot_datefmt := bot_datefmt
    default_channel_id := default_channel_id }

/-! ### The `/snapshot` pipeline (lines 198-297) -/

/-- The incoming interaction, with its locale hints and ambient context. -/
structure Interaction where
  locale : Option String
  guild_locale : Option String
  user_manage_guild : Bool
  guild : Option Guild
  channel : Option Channel

/-- `user_has_manage_guild` (lines 173-175). -/
def user_has_manage_guild (itx : Interaction) : Bool := itx.user_manage_guild

/-- The role argument of the command. -/
structure Role where
  id : Nat
  name : String
  members : List Member

/-- Outcome of `target_channel.send(...)`, a collaborator call. -/
inductive SendOutcome where
  | ok
  | forbidden
  | error (msg : String)
deriving DecidableEq, Repr

/-- Everything one invocation of the command depends on. -/
structure Invocation where
  itx : Interaction
  role : Role
  chanArg : Option Channel
  now : PyDateTime
  send_outcome : SendOutcome

/-- An observable effect of one invocation: a message to the invoker (via
`response.send_message` or `followup.send`, not distinguished by any claim),
the initial deferral, or the public channel post carrying the file. -/
inductive Effect where
  | msg (key : String) (text : String) (ephemeral : Bool)
  | deferred
  | channel_send (channelId roleId count : Nat) (timestamp : String)
      (content : String) (fileBytes : List Nat)
deriving DecidableEq, Repr

/-- What one invocation produced: its effect trace, whether member
enumeration was reached (line 230), and the CSV artifact if one was built. -/
structure SnapResult where
  effects : List Effect
  members_enumerated : Bool
  csv : Option (List Nat)
deriving DecidableEq, Repr

/-- `channel.mention`. -/
def channel_mention (c : Channel) : String := "<#" ++ toString c.id ++ ">"

/-- The language an invocation resolves (line 203). -/
def invocation_lang (cfg : Config) (inv : Invocation) : String :=
  pick_lang cfg.forced_lang cfg.cache inv.itx.locale inv.itx.guild_locale

/-- The ephemeral invalid-timezone warning (lines 206-210). -/
def tz_warn_effect (cfg : Config) (inv : Invocation) : Effect :=
  Effect.msg "warn.invalid_tz"
    (t cfg.cache (invocation_lang cfg inv) "warn.invalid_tz" [("tz", cfg.bot_tz)]) true

/-- The ephemeral permission-denied message (lines 213-217). -/
def need_manage_guild_effect (cfg : Config) (inv : Invocation) : Effect :=
  Effect.msg "err.need_manage_guild"
    (t cfg.cache (invocation_lang cfg inv) "err.need_manage_guild" []) true

/-- The ephemeral no-target-channel error (line 228). -/
def no_target_effect (cfg : Config) (inv : Invocation) : Effect :=
  Effect.msg "err.no_target_channel"
    (t cfg.cache (invocation_lang cfg inv) "err.no_target_channel" []) true

/-- The effects every surviving branch starts with: the timezone warning when
the configured zone failed validation (in which case the response is consumed
and the deferral is skipped), else the deferral (lines 206-220). -/
def base_effects (cfg : Config) (inv : Invocation) : List Effect :=
  if cfg.tz_valid then [Effect.deferred] else [tz_warn_effect cfg inv]

/-- The localized header labels (lines 247-251). -/
def header_labels (cfg : Config) (inv : Invocation) : List String :=
  [t cfg.cache (invocation_lang cfg inv) "csv.header.timestamp" [],
   t cfg.cache (invocation_lang cfg inv) "csv.header.username" [],
   t cfg.cache (invocation_lang cfg inv) "csv.header.discord_id" []]

/-- The user-facing snapshot timestamp (line 232). -/
def snap_time (cfg : Config) (inv : Invocation) : String :=
  format_timestamp cfg.bot_datefmt cfg.tz_conv inv.now (invocation_lang cfg inv)

/-- The CSV artifact an invocation builds (lines 238-256). -/
def snap_csv (cfg : Config) (inv : Invocation) : List Nat :=
  csv_bytes (header_labels cfg inv)
    (build_rows (snap_time cfg inv) (sort_members inv.role.members))

/-- The public channel post (lines 274-282): header line with role reference
and member count, timestamp line, and the file. -/
def success_send_effect (cfg : Config) (inv : Invocation) (tch : Channel) : Effect :=
  Effect.channel_send tch.id inv.role.id (sort_members inv.role.members).length
    (snap_time cfg inv)
    (t cfg.cache (invocation_lang cfg inv) "post.header"
        [("role_id", toString inv.role.id),
         ("count", toString (sort_members inv.role.members).length)]
      ++ "\n"
      ++ t cfg.cache (invocation_lang cfg inv) "post.timestamp"
        [("timestamp", snap_time cfg inv)])
    (snap_csv cfg inv)

/-- The ephemeral success confirmation (lines 294-297). -/
def ok_posted_effect (cfg : Config) (inv : Invocation) (tch : Channel) : Effect :=
  Effect.msg "ok.posted"
    (t cfg.cache (invocation_lang cfg inv) "ok.posted"
      [("channel", channel_mention tch)]) true

/-- The channel-capability check (lines 263-271): a raised `permissions_for`
is swallowed and the check passes. -/
def perm_check_fails (g : Guild) (tch : Channel) : Bool :=
  match g.perms_for tch.id with
  | some p => !(p.send_messages && p.attach_files && p.view_channel)
  | none => false

/-- The `/snapshot` command handler (lines 198-297) as a pure function from
the configuration and the invocation's inputs to its observable outcome. -/
def snapshot (cfg : Config) (inv : Invocation) : SnapResult :=
  let lang := invocation_lang cfg inv
  if !user_has_manage_guild inv.itx then
    { effects := (if cfg.tz_valid then [] else [tz_warn_effect cfg inv])
        ++ [need_manage_guild_effect cfg inv],
      members_enumerated := false, csv := none }
  else
    match inv.itx.guild with
    | none =>
      { effects := base_effects cfg inv
          ++ [Effect.msg "err.guild_only" (t cfg.cache lang "err.guild_only" []) true],
        members_enumerated := false, csv := none }
    | some g =>
      match target_channel inv.chanArg cfg.default_channel_id g inv.itx.channel with
      | none =>
        { effects := base_effects cfg inv ++ [no_target_effect cfg inv],
          members_enumerated := false, csv := none }
      | some tch =>
        if perm_check_fails g tch then
          { effects := base_effects cfg inv
              ++ [Effect.msg "err.missing_perms"
                    (t cfg.cache lang "err.missing_perms"
                      [("channel", channel_mention tch)]) true],
            members_enumerated := true, csv := some (snap_csv cfg inv) }
        else
          match inv.send_outcome with
          | SendOutcome.forbidden =>
            { effects := base_effects cfg inv
                ++ [Effect.msg "err.send_forbidden"
                      (t cfg.cache lang "err.send_forbidden"
                        [("channel", channel_mention tch)]) true],
              members_enumerated := true, csv := some (snap_csv cfg inv) }
          | SendOutcome.error e =>
            { effects := base_effects cfg inv
                ++ [Effect.msg "err.unexpected_send"
                      (t cfg.cache lang "err.unexpected_send" [("error", e)]) true],
              members_enumerated := true, csv := some (snap_csv cfg inv) }
          | SendOutcome.ok =>
            { effects := base_effects cfg inv
                ++ [success_send_effect cfg inv tch, ok_posted_effect cfg inv tch],
              members_enumerated := true, csv := some (snap_csv cfg inv) }

/-- A process run: the pipeline keeps no mutable cross-invocation state (the
catalog and configuration are immutable after startup, and each invocation
arrives with a fresh, unanswered interaction), so a sequence of invocations
is handled independently. -/
def process_run (cfg : Config) (invs : List Invocation) : List SnapResult :=
  invs.map (snapshot cfg)

/-! ### Claim-side renderings and trace predicates -/

/-- Per-character escaping as claim C1 words it: an embedded double quote is
preceded by a backslash escape character. -/
def c1_claim_escape (c : Char) : List Char := if c = '"' then ['\\', '"'] else [c]

/-- One CSV line as claim C1 words it. -/
def c1_claim_line (row : List String) : String :=
  String.intercalate ";"
    (row.map (fun f => "\"" ++ String.mk (f.data.flatMap c1_claim_escape) ++ "\"")) ++ "\r\n"

/-- The artifact as claim C1 words it. -/
def c1_claim_bytes (header : List String) (rows : List (List String)) : List Nat :=
  bomBytes ++ utf8Bytes (String.join ((header :: rows).map c1_claim_line))

/-- Per-character escaping the writer actually performs: an embedded double
quote is doubled, an embedded backslash (the escape character) is doubled,
everything else passes through. -/
def csv_escape (c : Char) : List Char :=
  if c = '"' then ['"', '"'] else if c = '\\' then ['\\', '\\'] else [c]

/-- One fully-quoted, semicolon-delimited, CRLF-terminated CSV line. -/
def csv_line (row : List String) : String :=
  String.intercalate ";"
    (row.map (fun f => "\"" ++ String.mk (f.data.flatMap csv_escape) ++ "\"")) ++ "\r\n"

/-- Is an effect the permission-denied message? -/
def is_denial : Effect → Bool
  | Effect.msg k _ _ => k == "err.need_manage_guild"
  | _ => false

/-- Is an effect the public channel post? -/
def is_public_send : Effect → Bool
  | Effect.channel_send _ _ _ _ _ _ => true
  | _ => false

/-- Is an effect the no-target-channel error message? -/
def is_no_target : Effect → Bool
  | Effect.msg k _ _ => k == "err.no_target_channel"
  | _ => false

/-- Did an invocation's trace include the invalid-timezone warning? -/
def has_tz_warn (r : SnapResult) : Bool :=
  r.effects.any (fun e =>
    match e with
    | Effect.msg k _ _ => k == "warn.invalid_tz"
    | _ => false)

/-- The lookup chain of claim C3, worded as presence-based first-found:
exact (language, key), then (English, key), then (German, key), then the
literal key. -/
def spec_lookup_chain (cache : Catalog) (lang key : String) : String :=
  (((cacheGet cache lang key).or (cacheGet cache "en" key)).or
    (cacheGet cache "de" key)).getD key

/-- What `t` computes when the exact (language, key) entry is ignored: the
chain continues with the English entry, the German entry, then the literal
key, followed by the usual guarded substitution. -/
def t_skip_first (cache : Catalog) (key : String) (kwargs : List (String × String)) : String :=
  let e2 := cacheGet cache "en" key
  let e3 := cacheGet cache "de" key
  let text :=
    if pyTruthyOpt e2 then e2.getD ""
    else if pyTruthyOpt e3 then e3.getD ""
    else key
  match format_map text kwargs with
  | some s => s
  | none => text

/-! ### Concrete fixtures for witnesses and counterexamples -/

/-- A guild with two channels and full bot permissions everywhere. -/
def wGuild : Guild := ⟨[⟨7⟩, ⟨9⟩], fun _ => some ⟨true, true, true⟩⟩

/-- A configuration with a valid timezone ("UTC"), no forced language, the
built-in catalog, no date-format override, and default channel id 9. -/
def wConfig : Config :=
  mkConfig (fun z => if z = "UTC" then some id else none) id "" default_lang_cache
    "UTC" none (some "9")

/-- A configuration whose configured timezone is not a known zone. -/
def wConfigBadTz : Config :=
  mkConfig (fun _ => none) id "" default_lang_cache "Mars/Phobos" none none

/-- A permitted invocation of the command on an empty role, set to succeed. -/
def wInvOk : Invocation :=
  { itx := { locale := some "en-US", guild_locale := none, user_manage_guild := true,
             guild := some wGuild, channel := some ⟨3⟩ }
    role := { id := 42, name := "Crew", members := [] }
    chanArg := none
    now := ⟨2024, 3, 1, 2, 3, 4⟩
    send_outcome := SendOutcome.ok }

/-- The same invocation issued by a user without the manage-server flag. -/
def wInvNoPerm : Invocation :=
  { wInvOk with itx := { wInvOk.itx with user_manage_guild := false } }

/-- The same invocation with an explicit channel argument. -/
def wInvChanArg : Invocation := { wInvOk with chanArg := some ⟨7⟩ }

/-! ### Helper lemmas -/

/-- A `cacheGet` hit returns a value stored in the catalog. -/
theorem cacheGet_ne_empty {cache : Catalog}
    (hne : ∀ p ∈ cache, ∀ q ∈ p.2, q.2 ≠ "") {l k v : String}
    (h : cacheGet cache l k = some v) : v ≠ "" := by
  unfold cacheGet tableGet catalogTable at h
  cases hf : cache.find? (fun p => p.1 == l) with
  | none => rw [hf] at h; simp at h
  | some p =>
    rw [hf] at h
    simp only [Option.map_some', Option.getD_some] at h
    cases hf2 : p.2.find? (fun q => q.1 == k) with
    | none => rw [hf2] at h; simp at h
    | some q =>
      rw [hf2] at h
      simp only [Option.map_some', Option.some.injEq] at h
      exact h ▸ hne p (List.mem_of_find?_eq_some hf) q (List.mem_of_find?_eq_some hf2)

/-- A positive `hasLang` test means the language code is in the catalog. -/
theorem hasLang_mem {cache : Catalog} {l : String} (h : hasLang cache l = true) :
    l ∈ catalogLangs cache := by
  unfold hasLang at h
  cases hf : cache.find? (fun p => p.1 == l) with
  | none => rw [hf] at h; simp at h
  | some p =>
    have hp := List.mem_of_find?_eq_some hf
    have hbeq : p.1 = l := by simpa using List.find?_some hf
    exact hbeq ▸ List.mem_map_of_mem (fun q => q.1) hp

/-! ### Claim C2 -/

/-- C2 counterexample: with a non-empty catalog containing neither "de" nor
"en" (for example only "fr"), language resolution falls back to "en", which
is not a member of the available languages — so the claim as stated fails. -/
theorem pick_lang_not_member_counterexample :
    pick_lang "" [("fr", [("a", "b")])] none none = "en" ∧
    ¬ "en" ∈ catalogLangs [("fr", [("a", "b")])] := by decide

/-- C2 (amended): language resolution is total by construction and, whenever
the catalog contains German or English, it returns a member of the available
languages; in that case the final fallback (German if present, otherwise
English) is itself a member of the catalog. -/
theorem pick_lang_mem (forced : String) (cache : Catalog)
    (locale guild_locale : Option String)
    (h : hasLang cache "de" = true ∨ hasLang cache "en" = true) :
    pick_lang forced cache locale guild_locale ∈ catalogLangs cache := by
  have tail : ∀ cand : String,
      (if py_startswith cand "de" && hasLang cache "de" then "de"
       else if py_startswith cand "en" && hasLang cache "en" then "en"
       else if hasLang cache "de" then "de" else "en") ∈ catalogLangs cache := by
    intro cand
    split_ifs with h1 h2 h3
    · exact hasLang_mem ((Bool.and_eq_true _ _).mp h1).2
    · exact hasLang_mem ((Bool.and_eq_true _ _).mp h2).2
    · exact hasLang_mem h3
    · cases h with
      | inl hde => exact absurd hde h3
      | inr hen => exact hasLang_mem hen
  simp only [pick_lang]
  split
  · next h0 => exact hasLang_mem ((Bool.and_eq_true _ _).mp h0).2
  · exact tail _

/-- C2 witness: the amended theorem applied to the built-in catalog. -/
theorem pick_lang_mem_witness :
    (hasLang default_lang_cache "de" = true ∨ hasLang default_lang_cache "en" = true) ∧
    pick_lang "" default_lang_cache (some "fr") none ∈ catalogLangs default_lang_cache :=
  ⟨Or.inl (by decide), pick_lang_mem "" default_lang_cache (some "fr") none (Or.inl (by decide))⟩

/-! ### Claim C3 -/

/-- C3: when no stored template is the empty string (so that presence and
Python truthiness coincide), `t` resolves the message body by the first-found
chain exact (language, key) → (English, key) → (German, key) → the literal
key, then applies placeholder substitution, returning the raw template
unchanged when substitution fails — `t` is a total function and never
raises. -/
theorem t_lookup_order (cache : Catalog) (lang key : String)
    (kwargs : List (String × String))
    (hne : ∀ p ∈ cache, ∀ q ∈ p.2, q.2 ≠ "") :
    t cache lang key kwargs =
      match format_map (spec_lookup_chain cache lang key) kwargs with
      | some s => s
      | none => spec_lookup_chain cache lang key := by
  have chain :
      (if pyTruthyOpt (cacheGet cache lang key) then (cacheGet cache lang key).getD ""
       else if pyTruthyOpt (cacheGet cache "en" key) then (cacheGet cache "en" key).getD ""
       else if pyTruthyOpt (cacheGet cache "de" key) then (cacheGet cache "de" key).getD ""
       else key) = spec_lookup_chain cache lang key := by
    unfold spec_lookup_chain
    cases h1 : cacheGet cache lang key with
    | some v =>
      have hv := cacheGet_ne_empty hne h1
      simp [pyTruthyOpt, pyTruthy, hv, Option.or]
    | none =>
      cases h2 : cacheGet cache "en" key with
      | some v =>
        have hv := cacheGet_ne_empty hne h2
        simp [pyTruthyOpt, pyTruthy, hv, Option.or]
      | none =>
        cases h3 : cacheGet cache "de" key with
        | some v =>
          have hv := cacheGet_ne_empty hne h3
          simp [pyTruthyOpt, pyTruthy, hv, Option.or]
        | none => simp [pyTruthyOpt, Option.or]
  simp only [t]
  rw [chain]

/-- C3 witness: the theorem applied to the built-in catalog (whose stored
templates are all non-empty) at a German key with a placeholder. -/
theorem t_lookup_order_witness :
    (∀ p ∈ default_lang_cache, ∀ q ∈ p.2, q.2 ≠ "") ∧
    t default_lang_cache "de" "ok.posted" [("channel", "<#9>")] =
      match format_map (spec_lookup_chain default_lang_cache "de" "ok.posted")
          [("channel", "<#9>")] with
      | some s => s
      | none => spec_lookup_chain default_lang_cache "de" "ok.posted" :=
  ⟨by decide, t_lookup_order default_lang_cache "de" "ok.posted" [("channel", "<#9>")] (by decide)⟩

/-! ### Claim C8 -/

/-- C8 counterexample: "de-CH" is a "de"-family language code (it starts with
"de"), yet with no override configured the formatter renders with the
year-month-day pattern, not the day-month-year pattern the claim promises for
the whole "de" family — the source compares the language for exact equality
with "de". -/
theorem format_timestamp_de_family_counterexample :
    py_startswith (py_lower "de-CH") "de" = true ∧
    format_timestamp none id ⟨2024, 3, 1, 2, 3, 4⟩ "de-CH" =
      strftime en_datefmt ⟨2024, 3, 1, 2, 3, 4⟩ ∧
    strftime en_datefmt ⟨2024, 3, 1, 2, 3, 4⟩ ≠ strftime de_datefmt ⟨2024, 3, 1, 2, 3, 4⟩ := by
  decide

/-- C8 (amended): a truthy override pattern is applied verbatim and makes the
output independent of the language; otherwise the day-month-year pattern is
chosen exactly for the language code "de", and every other code — including
regional German variants such as "de-CH" — gets the year-month-day pattern;
in both cases the instant is first pushed through the configured timezone
conversion. -/
theorem format_timestamp_pattern (ov : Option String) (tzc : PyDateTime → PyDateTime)
    (dt : PyDateTime) (lang : String) :
    (pyTruthyOpt ov = true →
      format_timestamp ov tzc dt lang = strftime (ov.getD "") (tzc dt) ∧
      ∀ lang2 : String, format_timestamp ov tzc dt lang2 = format_timestamp ov tzc dt lang) ∧
    (pyTruthyOpt ov = false →
      format_timestamp ov tzc dt lang =
        strftime (if lang == "de" then de_datefmt else en_datefmt) (tzc dt)) := by
  constructor
  · intro h
    constructor
    · simp [format_timestamp, h]
    · intro lang2
      simp [format_timestamp, h]
  · intro h
    simp only [format_timestamp, h, Bool.false_eq_true, if_false]

/-- C8 witness: the amended theorem applied with the override "%H" and the
non-German language "fr". -/
theorem format_timestamp_pattern_witness :
    pyTruthyOpt (some "%H") = true ∧
    format_timestamp (some "%H") id ⟨2024, 3, 1, 2, 3, 4⟩ "fr" =
      strftime "%H" (id (⟨2024, 3, 1, 2, 3, 4⟩ : PyDateTime)) :=
  ⟨by decide,
   ((format_timestamp_pattern (some "%H") id ⟨2024, 3, 1, 2, 3, 4⟩ "fr").1 (by decide)).1⟩

/-! ### Claim C10 -/

/-- C10: a (language, key) entry stored as the empty string is
indistinguishable from a missing entry — `t` behaves exactly as the chain
that starts at the English entry, then the German entry, then the literal
key. -/
theorem t_skips_empty_template (cache : Catalog) (lang key : String)
    (kwargs : List (String × String)) (h : cacheGet cache lang key = some "") :
    t cache lang key kwargs = t_skip_first cache key kwargs := by
  simp only [t, t_skip_first, h]
  simp [pyTruthyOpt, pyTruthy]

/-- C10 witness: an empty German template is skipped in favour of the English
entry. -/
theorem t_skips_empty_template_witness :
    cacheGet [("de", [("k", "")]), ("en", [("k", "Hello")])] "de" "k" = some "" ∧
    t [("de", [("k", "")]), ("en", [("k", "Hello")])] "de" "k" [] =
      t_skip_first [("de", [("k", "")]), ("en", [("k", "Hello")])] "k" [] :=
  ⟨by decide, t_skips_empty_template [("de", [("k", "")]), ("en", [("k", "Hello")])] "de" "k" [] (by decide)⟩

/-! ### Claim C6 -/

/-- C6: when the invoking user lacks the manage-server flag, the invocation
terminates right after the (possibly warning-prefixed) permission check: the
trace is exactly the timezone warning (when applicable) followed by one
ephemeral localized permission-denied message, member enumeration is never
reached, no CSV artifact is built, and nothing is posted publicly. -/
theorem snapshot_permission_denied (cfg : Config) (inv : Invocation)
    (h : inv.itx.user_manage_guild = false) :
    (snapshot cfg inv).effects =
      (if cfg.tz_valid then [] else [tz_warn_effect cfg inv])
        ++ [need_manage_guild_effect cfg inv] ∧
    (snapshot cfg inv).effects.filter is_denial = [need_manage_guild_effect cfg inv] ∧
    (snapshot cfg inv).members_enumerated = false ∧
    (snapshot cfg inv).csv = none ∧
    ∀ e ∈ (snapshot cfg inv).effects, is_public_send e = false := by
  have hs : snapshot cfg inv =
      { effects := (if cfg.tz_valid then [] else [tz_warn_effect cfg inv])
          ++ [need_manage_guild_effect cfg inv],
        members_enumerated := false, csv := none } := by
    simp [snapshot, user_has_manage_guild, h]
  rw [hs]
  by_cases htz : cfg.tz_valid <;>
    simp [htz, is_denial, is_public_send, tz_warn_effect, need_manage_guild_effect]

/-- C6 witness: the theorem applied to a concrete denied invocation. -/
theorem snapshot_permission_denied_witness :
    wInvNoPerm.itx.user_manage_guild = false ∧
    (snapshot wConfig wInvNoPerm).members_enumerated = false ∧
    (snapshot wConfig wInvNoPerm).csv = none :=
  ⟨rfl, (snapshot_permission_denied wConfig wInvNoPerm rfl).2.2.1,
   (snapshot_permission_denied wConfig wInvNoPerm rfl).2.2.2.1⟩

/-! ### Claim C9 -/

/-- C9: on a role with zero members (all guards passing and the send
succeeding), the artifact is exactly the byte-order mark plus the header row,
and the pipeline completes successfully: the public post reports member count
0 and the ephemeral success confirmation follows. -/
theorem snapshot_zero_members (cfg : Config) (inv : Invocation) (g : Guild) (tch : Channel)
    (h0 : inv.role.members = [])
    (h1 : inv.itx.user_manage_guild = true)
    (h2 : inv.itx.guild = some g)
    (h3 : target_channel inv.chanArg cfg.default_channel_id g inv.itx.channel = some tch)
    (h4 : perm_check_fails g tch = false)
    (h5 : inv.send_outcome = SendOutcome.ok) :
    (snapshot cfg inv).csv =
      some (bomBytes ++ utf8Bytes (write_row "" (header_labels cfg inv))) ∧
    (snapshot cfg inv).effects =
      base_effects cfg inv ++ [success_send_effect cfg inv tch, ok_posted_effect cfg inv tch] ∧
    (sort_members inv.role.members).length = 0 ∧
    (snapshot cfg inv).members_enumerated = true := by
  have hs : snapshot cfg inv =
      { effects := base_effects cfg inv
          ++ [success_send_effect cfg inv tch, ok_posted_effect cfg inv tch],
        members_enumerated := true, csv := some (snap_csv cfg inv) } := by
    simp [snapshot, user_has_manage_guild, h1, h2, h3, h4, h5]
  rw [hs]
  refine ⟨?_, rfl, ?_, rfl⟩
  · simp [snap_csv, h0, sort_members, List.insertionSort, build_rows, csv_bytes, render_csv]
  · simp [h0, sort_members, List.insertionSort]

/-- C9 witness: the theorem applied to a concrete invocation on an empty
role. -/
theorem snapshot_zero_members_witness :
    wInvOk.role.members = [] ∧
    wInvOk.itx.user_manage_guild = true ∧
    wInvOk.itx.guild = some wGuild ∧
    target_channel wInvOk.chanArg wConfig.default_channel_id wGuild wInvOk.itx.channel = some ⟨9⟩ ∧
    perm_check_fails wGuild ⟨9⟩ = false ∧
    wInvOk.send_outcome = SendOutcome.ok ∧
    (snapshot wConfig wInvOk).csv =
      some (bomBytes ++ utf8Bytes (write_row "" (header_labels wConfig wInvOk))) :=
  ⟨rfl, rfl, rfl, by decide, rfl, rfl,
   (snapshot_zero_members wConfig wInvOk wGuild ⟨9⟩ rfl rfl rfl (by decide) rfl rfl).1⟩

/-! ### Claim C7 -/

/-- With an invalid configured timezone, every invocation's trace begins
with the warning: the guard on the warning is the per-interaction
response-state flag, which is fresh on each invocation. -/
theorem snapshot_head_warn (cfg : Config) (inv : Invocation)
    (hcfg : cfg.tz_valid = false) :
    (snapshot cfg inv).effects.head? = some (tz_warn_effect cfg inv) := by
  unfold snapshot
  split
  · simp [hcfg]
  · split
    · simp [base_effects, hcfg]
    · split
      · simp [base_effects, hcfg]
      · split
        · simp [base_effects, hcfg]
        · split <;> simp [base_effects, hcfg]

/-- C7 counterexample: the claim says only the first invocation of the
process emits the invalid-timezone warning; running two identical invocations
in one process against a configuration whose timezone failed validation, the
second invocation warns as well. -/
theorem tz_warning_not_only_first_counterexample :
    (process_run wConfigBadTz [wInvOk, wInvOk]).map has_tz_warn = [true, true] := by
  decide

/-- C7 (amended): an invalid configured timezone degrades startup to UTC with
the validity flag cleared, and then EVERY invocation in the process —
not only the first — emits one extra ephemeral localized warning before
normal processing (the warning is always the first effect of the trace). -/
theorem tz_invalid_fallback_and_warning
    (zone_lookup : String → Option (PyDateTime → PyDateTime))
    (utc_conv : PyDateTime → PyDateTime) (forced : String) (cache : Catalog)
    (bot_tz : String) (bot_datefmt default_channel_id : Option String)
    (h : zone_lookup bot_tz = none) (invs : List Invocation) :
    startup_tz zone_lookup utc_conv bot_tz = (utc_conv, false) ∧
    (mkConfig zone_lookup utc_conv forced cache bot_tz bot_datefmt default_channel_id).tz_valid
      = false ∧
    (mkConfig zone_lookup utc_conv forced cache bot_tz bot_datefmt default_channel_id).tz_conv
      = utc_conv ∧
    (∀ inv ∈ invs,
      (snapshot (mkConfig zone_lookup utc_conv forced cache bot_tz bot_datefmt
          default_channel_id) inv).effects.head? =
        some (tz_warn_effect (mkConfig zone_lookup utc_conv forced cache bot_tz bot_datefmt
          default_channel_id) inv)) ∧
    (process_run (mkConfig zone_lookup utc_conv forced cache bot_tz bot_datefmt
        default_channel_id) invs).all has_tz_warn = true := by
  have hv : (mkConfig zone_lookup utc_conv forced cache bot_tz bot_datefmt
      default_channel_id).tz_valid = false := by
    simp [mkConfig, startup_tz, h]
  refine ⟨by simp [startup_tz, h], hv, by simp [mkConfig, startup_tz, h], ?_, ?_⟩
  · intro inv _
    exact snapshot_head_warn _ inv hv
  · rw [List.all_eq_true]
    intro r hr
    rw [process_run, List.mem_map] at hr
    obtain ⟨inv, _, rfl⟩ := hr
    have hh := snapshot_head_warn _ inv hv
    rw [has_tz_warn, List.any_eq_true]
    refine ⟨tz_warn_effect (mkConfig zone_lookup utc_conv forced cache bot_tz bot_datefmt
      default_channel_id) inv, ?_, by rfl⟩
    exact List.mem_of_mem_head? hh

/-- C7 witness: the amended theorem applied to a concrete failing zone lookup
and a one-invocation process. -/
theorem tz_invalid_fallback_and_warning_witness :
    ((fun _ : String => (none : Option (PyDateTime → PyDateTime))) "Mars/Phobos" = none) ∧
    (process_run (mkConfig (fun _ => none) id "" default_lang_cache "Mars/Phobos" none none)
      [wInvOk]).all has_tz_warn = true :=
  ⟨rfl,
   (tz_invalid_fallback_and_warning (fun _ => none) id "" default_lang_cache "Mars/Phobos"
     none none rfl [wInvOk]).2.2.2.2⟩

/-! ### Claim C5 -/

/-- C5: target-channel resolution follows the strict priority explicit
argument → configured default id resolved in the guild (absence or lookup
failure degrading to `none`, never an error) → invocation channel; it is
`none` exactly when all three are absent or unresolvable, and (for a
permitted in-guild invocation) the pipeline emits the localized
no-target-channel error exactly in that case. -/
theorem target_channel_priority (cfg : Config) (inv : Invocation) (g : Guild)
    (hperm : inv.itx.user_manage_guild = true) (hg : inv.itx.guild = some g) :
    (∀ c, inv.chanArg = some c →
      target_channel inv.chanArg cfg.default_channel_id g inv.itx.channel = some c) ∧
    (inv.chanArg = none → ∀ c, resolve_default_channel cfg.default_channel_id g = some c →
      target_channel inv.chanArg cfg.default_channel_id g inv.itx.channel = some c) ∧
    (inv.chanArg = none → resolve_default_channel cfg.default_channel_id g = none →
      target_channel inv.chanArg cfg.default_channel_id g inv.itx.channel = inv.itx.channel) ∧
    (target_channel inv.chanArg cfg.default_channel_id g inv.itx.channel = none ↔
      inv.chanArg = none ∧ resolve_default_channel cfg.default_channel_id g = none ∧
        inv.itx.channel = none) ∧
    (target_channel inv.chanArg cfg.default_channel_id g inv.itx.channel = none →
      (snapshot cfg inv).effects = base_effects cfg inv ++ [no_target_effect cfg inv] ∧
      (snapshot cfg inv).csv = none) ∧
    (∀ tch, target_channel inv.chanArg cfg.default_channel_id g inv.itx.channel = some tch →
      (snapshot cfg inv).effects.all (fun e => !is_no_target e) = true) := by
  refine ⟨?_, ?_, ?_, ?_, ?_, ?_⟩
  · intro c hc
    simp [target_channel, hc, Option.or]
  · intro hc c hr
    simp [target_channel, hc, hr, Option.or]
  · intro hc hr
    simp [target_channel, hc, hr, Option.or]
  · cases hc : inv.chanArg <;>
      cases hr : resolve_default_channel cfg.default_channel_id g <;>
        cases hi : inv.itx.channel <;> simp [target_channel, Option.or, hc, hr, hi]
  · intro htc
    constructor <;> simp [snapshot, user_has_manage_guild, hperm, hg, htc]
  · intro tch htc
    have hs : snapshot cfg inv =
        if perm_check_fails g tch then
          { effects := base_effects cfg inv
              ++ [Effect.msg "err.missing_perms"
                    (t cfg.cache (invocation_lang cfg inv) "err.missing_perms"
                      [("channel", channel_mention tch)]) true],
            members_enumerated := true, csv := some (snap_csv cfg inv) }
        else
          match inv.send_outcome with
          | SendOutcome.forbidden =>
            { effects := base_effects cfg inv
                ++ [Effect.msg "err.send_forbidden"
                      (t cfg.cache (invocation_lang cfg inv) "err.send_forbidden"
                        [("channel", channel_mention tch)]) true],
              members_enumerated := true, csv := some (snap_csv cfg inv) }
          | SendOutcome.error e =>
            { effects := base_effects cfg inv
                ++ [Effect.msg "err.unexpected_send"
                      (t cfg.cache (invocation_lang cfg inv) "err.unexpected_send"
                        [("error", e)]) true],
              members_enumerated := true, csv := some (snap_csv cfg inv) }
          | SendOutcome.ok =>
            { effects := base_effects cfg inv
                ++ [success_send_effect cfg inv tch, ok_posted_effect cfg inv tch],
              members_enumerated := true, csv := some (snap_csv cfg inv) } := by
      simp [snapshot, user_has_manage_guild, hperm, hg, htc]
    rw [hs]
    by_cases htz : cfg.tz_valid <;> split_ifs with hp
    · simp [base_effects, htz, is_no_target, tz_warn_effect]
    · cases inv.send_outcome <;>
        simp [base_effects, htz, is_no_target, tz_warn_effect, success_send_effect,
          ok_posted_effect]
    · simp [base_effects, htz, is_no_target, tz_warn_effect]
    · cases inv.send_outcome <;>
        simp [base_effects, htz, is_no_target, tz_warn_effect, success_send_effect,
          ok_posted_effect]

/-- C5 witness: the theorem applied to a concrete invocation carrying an
explicit channel argument, which wins over both the configured default and
the invocation channel. -/
theorem target_channel_priority_witness :
    wInvChanArg.itx.user_manage_guild = true ∧
    wInvChanArg.itx.guild = some wGuild ∧
    wInvChanArg.chanArg = some ⟨7⟩ ∧
    target_channel wInvChanArg.chanArg wConfig.default_channel_id wGuild
      wInvChanArg.itx.channel = some ⟨7⟩ :=
  ⟨rfl, rfl, rfl,
   (target_channel_priority wConfig wInvChanArg wGuild rfl rfl).1 ⟨7⟩ rfl⟩

/-! ### Claim C1 -/

/-- One writer step appends exactly the escape expansion of the character. -/
theorem join_append_char_data (acc : String) (c : Char) :
    (join_append_char acc c).data = acc.data ++ csv_escape c := by
  unfold join_append_char csv_escape
  split_ifs <;> simp

/-- The writer's field loop is the per-character escape map. -/
theorem foldl_join_append_data (l : List Char) (acc : String) :
    (l.foldl join_append_char acc).data = acc.data ++ l.flatMap csv_escape := by
  induction l generalizing acc with
  | nil => simp
  | cons c l ih => simp [List.foldl_cons, ih, join_append_char_data]

/-- A written field is the quoted, escaped field text. -/
theorem write_field_eq (s : String) :
    write_field s = "\"" ++ String.mk (s.data.flatMap csv_escape) ++ "\"" := by
  apply String.ext
  simp [write_field, foldl_join_append_data]

/-- One written row appends one CSV line to the buffer. -/
theorem write_row_eq (buf : String) (row : List String) :
    write_row buf row = buf ++ csv_line row := by
  unfold write_row csv_line
  rw [String.append_assoc]
  have : row.map write_field =
      row.map (fun f => "\"" ++ String.mk (f.data.flatMap csv_escape) ++ "\"") :=
    List.map_congr_left (fun f _ => write_field_eq f)
  rw [this]

/-- `String.join` peels off its head summand. -/
theorem string_join_cons (a : String) (l : List String) :
    String.join (a :: l) = a ++ String.join l := by
  have fold : ∀ (l : List String) (x y : String),
      l.foldl (fun r s => r ++ s) (x ++ y) = x ++ l.foldl (fun r s => r ++ s) y := by
    intro l
    induction l with
    | nil => intro x y; rfl
    | cons b l ih =>
      intro x y
      simp only [List.foldl_cons]
      rw [String.append_assoc, ih]
  show (a :: l).foldl (fun r s => r ++ s) "" = a ++ l.foldl (fun r s => r ++ s) ""
  simp only [List.foldl_cons]
  have h : ("" : String) ++ a = a ++ "" := by
    apply String.ext
    simp
  rw [h, fold]

/-- The buffer after all rows are written: header line then data lines. -/
theorem render_csv_eq (header : List String) (rows : List (List String)) :
    render_csv header rows = String.join ((header :: rows).map csv_line) := by
  have fold : ∀ (rs : List (List String)) (buf : String),
      rs.foldl write_row buf = buf ++ String.join (rs.map csv_line) := by
    intro rs
    induction rs with
    | nil =>
      intro buf
      show buf = buf ++ String.join []
      rw [String.join, List.foldl_nil, String.append_empty]
    | cons r rs ih =>
      intro buf
      simp only [List.foldl_cons, List.map_cons]
      rw [ih, write_row_eq, string_join_cons, String.append_assoc]
  unfold render_csv
  rw [fold, write_row_eq, List.map_cons, string_join_cons]
  apply String.ext
  simp

/-- C1 counterexample: on a header field containing an embedded double quote
the writer's bytes differ from the claim's rendering (backslash-escaped
quotes): the `csv` module's default `doublequote=True` doubles the quote
instead, and the configured backslash escape character only escapes literal
backslashes. -/
theorem csv_backslash_escape_counterexample :
    csv_bytes ["a\"b"] [] ≠ c1_claim_bytes ["a\"b"] [] := by decide

/-- C1 (amended): the artifact always begins with the UTF-8 byte-order mark,
and is exactly the UTF-8 bytes of one line per row (header first) in which
every field is wrapped in double quotes, fields are separated by semicolons,
every line — including the last — ends with CRLF, and an embedded double
quote is escaped by doubling it (while an embedded backslash, the configured
escape character, is escaped by a backslash). -/
theorem csv_bytes_structure (header : List String) (rows : List (List String)) :
    csv_bytes header rows =
      bomBytes ++ utf8Bytes (String.join ((header :: rows).map csv_line)) ∧
    (csv_bytes header rows).take 3 = bomBytes := by
  have h1 : csv_bytes header rows =
      bomBytes ++ utf8Bytes (String.join ((header :: rows).map csv_line)) := by
    unfold csv_bytes
    rw [render_csv_eq]
  exact ⟨h1, by rw [h1]; rfl⟩

/-! ### Claim C4 -/

/-- The code-point comparison is total. -/
theorem strLeb_total : ∀ as bs : List Char, strLeb as bs = true ∨ strLeb bs as = true
  | [], _ => Or.inl rfl
  | _ :: _, [] => Or.inr rfl
  | a :: as, b :: bs => by
    by_cases h1 : a.toNat < b.toNat
    · left
      simp [strLeb, h1]
    · by_cases h2 : b.toNat < a.toNat
      · right
        simp [strLeb, h2]
      · cases strLeb_total as bs with
        | inl h => left; simp [strLeb, h1, h2, h]
        | inr h => right; simp [strLeb, h1, h2, h]

/-- The code-point comparison is transitive. -/
theorem strLeb_trans : ∀ as bs cs : List Char,
    strLeb as bs = true → strLeb bs cs = true → strLeb as cs = true
  | [], _, _ => fun _ _ => rfl
  | _ :: _, [], _ => by
    intro h _
    simp [strLeb] at h
  | _ :: _, _ :: _, [] => by
    intro _ h
    simp [strLeb] at h
  | a :: as, b :: bs, c :: cs => by
    intro h1 h2
    simp only [strLeb] at h1 h2 ⊢
    by_cases hab : a.toNat < b.toNat
    · by_cases hbc : b.toNat < c.toNat
      · simp [show a.toNat < c.toNat by omega]
      · by_cases hcb : c.toNat < b.toNat
        · simp [hbc, hcb] at h2
        · simp [show a.toNat < c.toNat by omega]
    · by_cases hba : b.toNat < a.toNat
      · simp [hab, hba] at h1
      · by_cases hbc : b.toNat < c.toNat
        · simp [show a.toNat < c.toNat by omega]
        · by_cases hcb : c.toNat < b.toNat
          · simp [hbc, hcb] at h2
          · have hac : ¬ a.toNat < c.toNat := by omega
            have hca : ¬ c.toNat < a.toNat := by omega
            simp only [hab, hba, if_false] at h1
            simp only [hbc, hcb, if_false] at h2
            simp only [hac, hca, if_false]
            exact strLeb_trans as bs cs h1 h2

/-- C4: the pipeline's member ordering is an ascending sort by the
case-insensitive display name that is stable (a pair already in key order in
the input stays in that order in the output), and on the spec's example the
rows after the header come out alice(1), Alice(3), Bob(2). -/
theorem sort_members_spec (members : List Member) :
    List.Sorted memberLe (sort_members members) ∧
    List.Perm (sort_members members) members ∧
    (∀ a b : Member, memberLe a b → List.Sublist [a, b] members →
      List.Sublist [a, b] (sort_members members)) ∧
    build_rows "t1" (sort_members
        [⟨"Bob", "Bob", 2⟩, ⟨"alice", "alice", 1⟩, ⟨"Alice", "Alice", 3⟩]) =
      [["t1", "alice", "1"], ["t1", "Alice", "3"], ["t1", "Bob", "2"]] := by
  haveI itot : IsTotal Member memberLe := ⟨fun a b => strLeb_total _ _⟩
  haveI itr : IsTrans Member memberLe := ⟨fun _ _ _ h1 h2 => strLeb_trans _ _ _ h1 h2⟩
  exact ⟨List.sorted_insertionSort memberLe members,
    List.perm_insertionSort memberLe members,
    fun _ _ hab h => List.pair_sublist_insertionSort hab h,
    by decide⟩

/-- C4 witness: the stability clause applied to the tied pair alice(1) and
Alice(3) of the spec's example. -/
theorem sort_members_spec_witness :
    memberLe ⟨"alice", "alice", 1⟩ ⟨"Alice", "Alice", 3⟩ ∧
    List.Sublist [(⟨"alice", "alice", 1⟩ : Member), ⟨"Alice", "Alice", 3⟩]
      [⟨"Bob", "Bob", 2⟩, ⟨"alice", "alice", 1⟩, ⟨"Alice", "Alice", 3⟩] ∧
    List.Sublist [(⟨"alice", "alice", 1⟩ : Member), ⟨"Alice", "Alice", 3⟩]
      (sort_members [⟨"Bob", "Bob", 2⟩, ⟨"alice", "alice", 1⟩, ⟨"Alice", "Alice", 3⟩]) :=
  ⟨by decide, by decide,
   (sort_members_spec [⟨"Bob", "Bob", 2⟩, ⟨"alice", "alice", 1⟩, ⟨"Alice", "Alice", 3⟩]).2.2.1
     ⟨"alice", "alice", 1⟩ ⟨"Alice", "Alice", 3⟩ (by decide) (by decide)⟩

end SnapshotBot
